import Mathlib

/-!
Shallow embedding of the retrieval-tool layer of a conversational
economy-data agent (source: chat-agent.py).

The program's observable behaviour is a pure function of the user's
question and of the outcome of the single HTTP exchange each client
performs, so the embedding passes that outcome in explicitly:

* JSON values are modelled by the inductive type Json;
* the outcome of one HTTP call (requests.get / requests.post) is an
  HttpOutcome: either a network-level failure (connection error or
  timeout, i.e. a RequestException raised by the transport) or a final
  response carrying its status code, its raw body text, and the result
  of parsing that text as JSON (none when the body is not valid JSON,
  in which case response.json() raises json.JSONDecodeError);
* a Python function that can terminate with an uncaught exception is
  embedded with an Option result, none standing for the escaping
  exception.

Envelopes returned by the two clients are the Envelope structure; the
data key is always present in every dictionary the source builds, while
question and message each appear only on some paths, hence Option.
-/

set_option autoImplicit false

/-- JSON values. Numbers are abstracted by integers; no claim inspects
numeric payloads. -/
inductive Json where
  | null
  | bool (b : Bool)
  | num (n : Int)
  | str (s : String)
  | arr (items : List Json)
  | obj (fields : List (String × Json))
  deriving Repr

/-- First-match lookup in an association list of object fields, the
behaviour of Python dictionary subscripting and dict.get on the decoded
JSON objects. -/
def lookupField : List (String × Json) → String → Option Json
  | [], _ => none
  | (k, v) :: rest, key => if k = key then some v else lookupField rest key

/-- Python d[key] / d.get(key) on a decoded JSON value: only objects
have fields; on any other value subscripting raises (TypeError), which
lookup failure (none) also stands for. -/
def Json.getField : Json → String → Option Json
  | .obj fields, key => lookupField fields key
  | _, _ => none

/-- Keys of a JSON object, in order. -/
def Json.keys : Json → List String
  | .obj fields => fields.map Prod.fst
  | _ => []

/-- Escaping of one character inside a JSON string literal, as
json.dumps performs it for the characters that occur here. -/
def jsonEscapeChar (c : Char) : String :=
  if c = '\\' then "\\\\" else if c = '"' then "\\\"" else String.singleton c

/-- A JSON string literal as json.dumps prints it. -/
def jsonQuote (s : String) : String :=
  "\"" ++ String.join (s.toList.map jsonEscapeChar) ++ "\""

mutual

/-- Serialization of a JSON value, as json.dumps prints it with the
default separators. -/
def Json.dumps : Json → String
  | .null => "null"
  | .bool true => "true"
  | .bool false => "false"
  | .num n => toString n
  | .str s => jsonQuote s
  | .arr items => "[" ++ Json.dumpsItems items ++ "]"
  | .obj fields => "\x7b" ++ Json.dumpsFields fields ++ "\x7d"

/-- Comma-separated serialization of array items. -/
def Json.dumpsItems : List Json → String
  | [] => ""
  | [x] => Json.dumps x
  | x :: y :: rest => Json.dumps x ++ ", " ++ Json.dumpsItems (y :: rest)

/-- Comma-separated serialization of object fields. -/
def Json.dumpsFields : List (String × Json) → String
  | [] => ""
  | [(k, v)] => jsonQuote k ++ ": " ++ Json.dumps v
  | (k, v) :: f :: rest =>
      jsonQuote k ++ ": " ++ Json.dumps v ++ ", " ++ Json.dumpsFields (f :: rest)

end

/-- Outcome of the one HTTP exchange a client performs against its
remote service. -/
inductive HttpOutcome where
  | networkFailure (msg : String)
  | response (status : Nat) (text : String) (body : Option Json)

/-- The raw body text of the exchange, when a response was received at
all. -/
def rawText : HttpOutcome → Option String
  | .networkFailure _ => none
  | .response _ text _ => some text

/-- response.raise_for_status() raises requests.exceptions.HTTPError
exactly for client-error and server-error status codes (400-599). -/
def raiseForStatusFails (status : Nat) : Bool :=
  decide (400 ≤ status ∧ status < 600)

/-- The str() of the HTTPError that raise_for_status raises; only its
status-dependence matters here, the library also appends reason and
URL. -/
def httpErrorText (status : Nat) : String :=
  toString status ++ " Error"

/-- The uniform success/error wrapper both clients return. The data key
is present in every envelope the source builds (Json.null embeds
Python's None); question appears only on success paths and message only
on error paths, hence Option for those two. -/
structure Envelope where
  status : String
  question : Option String
  data : Json
  message : Option String
  deriving Repr

/-- The envelope as the Python dictionary it is, with the source's key
insertion order: status first, then question (success dictionaries) or
message (error dictionaries), then data. -/
def Envelope.toJson (e : Envelope) : Json :=
  Json.obj ([("status", Json.str e.status)]
    ++ (match e.question with | some q => [("question", Json.str q)] | none => [])
    ++ (match e.message with | some m => [("message", Json.str m)] | none => [])
    ++ [("data", e.data)])

/-- call_sql_api: one GET against the structured-data endpoint.
Dispatch mirrors the source's except clauses in order: a transport
failure or an HTTPError from raise_for_status is a RequestException
(first clause, connect-error envelope with null data); a body that is
not valid JSON raises json.JSONDecodeError (second clause, decode-error
envelope carrying response.text); a missing result field raises
KeyError (TypeError when the decoded body is not an object), caught by
the bare except (third clause, unexpected-error envelope carrying
response.text). No exception escapes. -/
def call_sql_api (question : String) (o : HttpOutcome) : Envelope :=
  match o with
  | .networkFailure msg =>
      { status := "error", question := none, data := Json.null,
        message := some ("Failed to connect to SQL API: " ++ msg) }
  | .response status text body =>
      if raiseForStatusFails status then
        { status := "error", question := none, data := Json.null,
          message := some ("Failed to connect to SQL API: " ++ httpErrorText status) }
      else
        match body with
        | none =>
            { status := "error", question := none, data := Json.str text,
              message := some "Failed to decode JSON response from SQL API." }
        | some j =>
            match j.getField "result" with
            | some r =>
                { status := "success", question := some question, data := r,
                  message := none }
            | none =>
                { status := "error", question := none, data := Json.str text,
                  message := some "An unexpected error occurred." }

/-- Python iteration (for result in x) over a decoded JSON value: a
list yields its elements, a string yields its characters as one-element
strings, a dictionary yields its keys; null, booleans and numbers are
not iterable (TypeError), modelled as none. -/
def pyIter : Json → Option (List Json)
  | .arr items => some items
  | .str s => some (s.toList.map fun c => Json.str (String.singleton c))
  | .obj fields => some (fields.map fun f => Json.str f.1)
  | _ => none

/-- The loop body of call_vector_search_api on one retrieved hit: build
the seven-field snippet dictionary with result.get defaults, then
append the projection onto content, source and date. -/
def mkSnippet (fields : List (String × Json)) : Json :=
  let content := (lookupField fields "content").getD (Json.str "No Title")
  let _distance := (lookupField fields "distance").getD (Json.str "No Snippet")
  let source := (lookupField fields "source").getD (Json.str "No URL")
  let _page := (lookupField fields "page").getD (Json.str "No Page Number")
  let _reference := (lookupField fields "reference").getD (Json.str "No Reference")
  let _crossScore := (lookupField fields "cross_score").getD (Json.str "No Cross Score")
  let date := (lookupField fields "date").getD (Json.str "No Date")
  Json.obj [("content", content), ("source", source), ("date", date)]

/-- The results-accumulating loop of call_vector_search_api: each
iterated item must be a dictionary for result.get to exist; on any
non-dictionary item the loop raises AttributeError, which nothing in
this client catches (none). -/
def extractSnippets : List Json → Option (List Json)
  | [] => some []
  | Json.obj fields :: rest => (extractSnippets rest).map (mkSnippet fields :: ·)
  | _ => none

/-- call_vector_search_api: one POST against the document-search
endpoint. The two except clauses convert a RequestException (transport
failure or raise_for_status) and a json.JSONDecodeError; there is no
catch-all, so a KeyError from a missing retrieved_results field, a
TypeError from a non-object body or a non-iterable field, or an
AttributeError from a non-dictionary hit all escape uncaught (none). -/
def call_vector_search_api (question : String) (o : HttpOutcome) : Option Envelope :=
  match o with
  | .networkFailure msg =>
      some { status := "error", question := none, data := Json.null,
             message := some ("Failed to connect to Vector Search API: " ++ msg) }
  | .response status text body =>
      if raiseForStatusFails status then
        some { status := "error", question := none, data := Json.null,
               message := some ("Failed to connect to Vector Search API: " ++ httpErrorText status) }
      else
        match body with
        | none =>
            some { status := "error", question := none, data := Json.str text,
                   message := some "Failed to decode JSON response from Vector Search API." }
        | some j =>
            match j.getField "retrieved_results" with
            | none => none
            | some rr =>
                match pyIter rr with
                | none => none
                | some items =>
                    (extractSnippets items).map fun snippets =>
                      { status := "success", question := some question,
                        data := Json.arr snippets, message := none }

/-- ExternalSqlApiTool._run: call the SQL client and json.dumps the
envelope. call_sql_api never raises, so neither does this adapter. -/
def ExternalSqlApiTool_run (question : String) (o : HttpOutcome) : String :=
  Json.dumps (call_sql_api question o).toJson

/-- ExternalVectorSearchApiTool._run: call the vector-search client and
json.dumps the envelope; an exception escaping the client escapes this
adapter too (none). -/
def ExternalVectorSearchApiTool_run (question : String) (o : HttpOutcome) : Option String :=
  (call_vector_search_api question o).map fun e => Json.dumps e.toJson

/-- Outcome of one agent_executor.invoke call, the external
language-model-driven loop: it either returns its result dictionary or
raises an Exception. -/
inductive AgentOutcome where
  | result (output : List (String × Json))
  | raised

/-- The fixed instructional template ask_indian_economy_agent wraps
around the user's question before invoking the executor. -/
def wrapQuestion (question : String) : String :=
  "User Question: " ++ question ++
  "\n        Required Analysis:\n        1. Extract precise numerical data\n        2. Find relevant policy documents/explanations\n        3. Show how context explains numbers\n"

/-- ask_indian_economy_agent: wrap the question, drive the executor,
return result['output']; except Exception catches both an exception
raised inside invoke and the KeyError of a missing output key, and
returns the fixed apology string. -/
def ask_indian_economy_agent (question : String) (invoke : String → AgentOutcome) : Json :=
  match invoke (wrapQuestion question) with
  | .raised => Json.str "Sorry, I encountered an error while processing your request."
  | .result r =>
      match lookupField r "output" with
      | some out => out
      | none => Json.str "Sorry, I encountered an error while processing your request."

/-! Theorems settling the claims. -/

/-- C1: whenever the HTTP request succeeds with a 2xx status but the
response body is not valid JSON, call_sql_api returns an error envelope
with the fixed decode-failure message and the raw response text (not
null) as data. -/
theorem sql_decode_error_envelope (q t : String) (s : Nat)
    (h2 : 200 ≤ s) (h3 : s < 300) :
    call_sql_api q (.response s t none) =
      { status := "error", question := none, data := Json.str t,
        message := some "Failed to decode JSON response from SQL API." } := by
  have hfail : raiseForStatusFails s = false := by
    simp only [raiseForStatusFails, decide_eq_false_iff_not, not_and, not_lt]
    omega
  simp [call_sql_api, hfail]

/-- Witness for C1 at a concrete 2xx response with a malformed body. -/
theorem sql_decode_error_envelope_witness :
    call_sql_api "gdp" (.response 200 "not json" none) =
      { status := "error", question := none, data := Json.str "not json",
        message := some "Failed to decode JSON response from SQL API." } :=
  sql_decode_error_envelope "gdp" "not json" 200 (by decide) (by decide)

/-- C4: whenever the HTTP request succeeds with a 2xx status and the
body parses as JSON with a result field, call_sql_api returns exactly
the success envelope carrying the question and the unmodified result
field. -/
theorem sql_success_envelope (q t : String) (s : Nat) (j r : Json)
    (h2 : 200 ≤ s) (h3 : s < 300) (hr : j.getField "result" = some r) :
    call_sql_api q (.response s t (some j)) =
      { status := "success", question := some q, data := r, message := none } := by
  have hfail : raiseForStatusFails s = false := by
    simp only [raiseForStatusFails, decide_eq_false_iff_not, not_and, not_lt]
    omega
  simp [call_sql_api, hfail, hr]

/-- Witness for C4 at a concrete 2xx response whose body holds a result
field. -/
theorem sql_success_envelope_witness :
    call_sql_api "gdp" (.response 200 "body" (some (Json.obj [("result", Json.num 3)]))) =
      { status := "success", question := some "gdp", data := Json.num 3, message := none } :=
  sql_success_envelope "gdp" "body" 200 (Json.obj [("result", Json.num 3)]) (Json.num 3)
    (by decide) (by decide) (by simp [Json.getField, lookupField])

/-- C5 counterexample: a 304 response is not 2xx, yet raise_for_status
raises only for 400-599, so with a decodable body carrying a result
field call_sql_api returns a success envelope, not the connect-error
envelope the claim demands for every non-2xx status. -/
theorem sql_non2xx_counterexample :
    call_sql_api "q" (.response 304 "cached" (some (Json.obj [("result", Json.str "v")]))) =
      { status := "success", question := some "q", data := Json.str "v", message := none } := by
  simp [call_sql_api, raiseForStatusFails, Json.getField, lookupField]

/-- C5 amended: whenever the connection fails or times out, or the
service responds with a 4xx or 5xx status, call_sql_api returns
normally with an error envelope whose data is null and whose message
begins with the fixed connect-failure text. -/
theorem sql_failure_error_envelope (q : String) (o : HttpOutcome)
    (h : (∃ m, o = .networkFailure m) ∨
         (∃ s t b, o = .response s t b ∧ 400 ≤ s ∧ s < 600)) :
    (call_sql_api q o).status = "error" ∧ (call_sql_api q o).data = Json.null ∧
    ∃ rest, (call_sql_api q o).message = some ("Failed to connect to SQL API" ++ rest) := by
  rcases h with ⟨m, rfl⟩ | ⟨s, t, b, rfl, h4, h6⟩
  · exact ⟨rfl, rfl, ": " ++ m, rfl⟩
  · have hfail : raiseForStatusFails s = true := by
      simp only [raiseForStatusFails, decide_eq_true_eq]
      omega
    refine ⟨?_, ?_, ": " ++ httpErrorText s, ?_⟩ <;> simp [call_sql_api, hfail]
    rfl

/-- Witness for the amended C5 at a concrete HTTP 500 response. -/
theorem sql_failure_error_envelope_witness :
    (call_sql_api "q" (.response 500 "boom" none)).status = "error" ∧
    (call_sql_api "q" (.response 500 "boom" none)).data = Json.null ∧
    ∃ rest, (call_sql_api "q" (.response 500 "boom" none)).message =
      some ("Failed to connect to SQL API" ++ rest) :=
  sql_failure_error_envelope "q" (.response 500 "boom" none)
    (Or.inr ⟨500, "boom", none, rfl, by decide, by decide⟩)

/-- C6: call_vector_search_api converts a network failure and a JSON
decode failure into error envelopes, but a 2xx JSON body without the
retrieved_results key raises an uncaught KeyError, modelled here as
none: the exception propagates to the caller. -/
theorem vector_unexpected_propagates :
    call_vector_search_api "policy" (.response 200 "\x7b\x7d" (some (Json.obj []))) = none ∧
    (∀ (q m : String), ∃ env, call_vector_search_api q (.networkFailure m) = some env ∧
      env.status = "error") ∧
    (∀ (q t : String) (s : Nat), 200 ≤ s → s < 300 →
      ∃ env, call_vector_search_api q (.response s t none) = some env ∧
        env.status = "error") := by
  refine ⟨rfl, fun q m => ⟨_, rfl, rfl⟩, fun q t s h2 h3 => ?_⟩
  have hfail : raiseForStatusFails s = false := by
    simp only [raiseForStatusFails, decide_eq_false_iff_not, not_and, not_lt]
    omega
  refine ⟨{ status := "error", question := none, data := Json.str t,
            message := some "Failed to decode JSON response from Vector Search API." }, ?_, rfl⟩
  simp [call_vector_search_api, hfail]

/-- Witness for C6 at a concrete 2xx response with a malformed body. -/
theorem vector_unexpected_propagates_witness :
    ∃ env, call_vector_search_api "q" (.response 201 "bad" none) = some env ∧
      env.status = "error" :=
  vector_unexpected_propagates.2.2 "q" "bad" 201 (by decide) (by decide)

/-- The fields of a JSON object (empty for non-objects); used to state
what the snippet loop produces on a list of object hits. -/
def Json.objFields : Json → List (String × Json)
  | .obj fields => fields
  | _ => []

/-- On a list in which every item is a JSON object, the snippet loop
completes without raising and maps mkSnippet over the hits in order. -/
theorem extractSnippets_allObj (items : List Json)
    (h : ∀ x ∈ items, ∃ fs, x = Json.obj fs) :
    extractSnippets items = some (items.map fun x => mkSnippet x.objFields) := by
  induction items with
  | nil => simp [extractSnippets]
  | cons x rest ih =>
      obtain ⟨fs, rfl⟩ := h x (List.mem_cons_self x rest)
      have hrest := ih fun y hy => h y (List.mem_cons_of_mem _ hy)
      simp [extractSnippets, hrest, Json.objFields]

/-- C3: for every successful document-search response whose
retrieved_results field is a list of JSON objects,
call_vector_search_api returns a success envelope whose data is the
snippet list obtained by mapping the loop body over the hits in order;
its length equals the number of hits and every snippet carries exactly
the keys content, source and date. -/
theorem vector_success_snippets (q t : String) (s : Nat) (j : Json) (hits : List Json)
    (h2 : 200 ≤ s) (h3 : s < 300)
    (hr : j.getField "retrieved_results" = some (Json.arr hits))
    (hobj : ∀ x ∈ hits, ∃ fs, x = Json.obj fs) :
    call_vector_search_api q (.response s t (some j)) =
      some { status := "success", question := some q,
             data := Json.arr (hits.map fun x => mkSnippet x.objFields),
             message := none } ∧
    (hits.map fun x => mkSnippet x.objFields).length = hits.length ∧
    ∀ x ∈ hits.map fun x => mkSnippet x.objFields,
      Json.keys x = ["content", "source", "date"] := by
  have hfail : raiseForStatusFails s = false := by
    simp only [raiseForStatusFails, decide_eq_false_iff_not, not_and, not_lt]
    omega
  refine ⟨?_, by simp, ?_⟩
  · simp [call_vector_search_api, hfail, hr, pyIter, extractSnippets_allObj hits hobj]
  · intro x hx
    simp only [List.mem_map] at hx
    obtain ⟨y, _, rfl⟩ := hx
    simp [mkSnippet, Json.keys]

/-- Witness for C3 at a concrete one-hit response whose hit carries
extra fields. -/
theorem vector_success_snippets_witness :
    call_vector_search_api "q"
        (.response 200 "body"
          (some (Json.obj [("retrieved_results",
            Json.arr [Json.obj [("content", Json.str "c"), ("distance", Json.num 1)]])]))) =
      some { status := "success", question := some "q",
             data := Json.arr
               ([Json.obj [("content", Json.str "c"), ("distance", Json.num 1)]].map
                 fun x => mkSnippet x.objFields),
             message := none } ∧
    ([Json.obj [("content", Json.str "c"), ("distance", Json.num 1)]].map
      fun x => mkSnippet x.objFields).length =
      [Json.obj [("content", Json.str "c"), ("distance", Json.num 1)]].length ∧
    ∀ x ∈ [Json.obj [("content", Json.str "c"), ("distance", Json.num 1)]].map
        fun x => mkSnippet x.objFields,
      Json.keys x = ["content", "source", "date"] :=
  vector_success_snippets "q" "body" 200
    (Json.obj [("retrieved_results",
      Json.arr [Json.obj [("content", Json.str "c"), ("distance", Json.num 1)]])])
    [Json.obj [("content", Json.str "c"), ("distance", Json.num 1)]]
    (by decide) (by decide) (by simp [Json.getField, lookupField])
    (fun x hx => by rw [List.mem_singleton] at hx; exact ⟨_, hx⟩)

/-- C10: in the snippet the loop body builds from one hit, a missing
content, source or date key is filled with the fixed default "No
Title", "No URL" or "No Date" respectively, each independently of the
other keys (the hit's remaining fields are arbitrary). -/
theorem snippet_missing_key_defaults (fields : List (String × Json)) :
    (lookupField fields "content" = none →
      Json.getField (mkSnippet fields) "content" = some (Json.str "No Title")) ∧
    (lookupField fields "source" = none →
      Json.getField (mkSnippet fields) "source" = some (Json.str "No URL")) ∧
    (lookupField fields "date" = none →
      Json.getField (mkSnippet fields) "date" = some (Json.str "No Date")) := by
  refine ⟨fun h => ?_, fun h => ?_, fun h => ?_⟩ <;>
    simp [mkSnippet, Json.getField, lookupField, h]

/-- Witness for C10 at a hit that has a source but no content key. -/
theorem snippet_missing_key_defaults_witness :
    Json.getField (mkSnippet [("source", Json.str "s")]) "content" =
      some (Json.str "No Title") :=
  (snippet_missing_key_defaults [("source", Json.str "s")]).1 (by simp [lookupField])

/-- C2 counterexample: on a 2xx response whose JSON body lacks
retrieved_results, call_vector_search_api raises, and
ExternalVectorSearchApiTool._run propagates that exception instead of
returning a serialized envelope. -/
theorem vector_tool_run_counterexample :
    ExternalVectorSearchApiTool_run "q" (.response 200 "\x7b\x7d" (some (Json.obj []))) =
      none := rfl

/-- C2 amended: ExternalSqlApiTool._run never raises and returns the
serialized SQL envelope; ExternalVectorSearchApiTool._run returns the
serialized envelope whenever the underlying client returns one, but
propagates the exception whenever the client raises. -/
theorem tool_run_serialization (q : String) (o : HttpOutcome) :
    ExternalSqlApiTool_run q o = Json.dumps (call_sql_api q o).toJson ∧
    (∀ env, call_vector_search_api q o = some env →
      ExternalVectorSearchApiTool_run q o = some (Json.dumps env.toJson)) ∧
    (call_vector_search_api q o = none →
      ExternalVectorSearchApiTool_run q o = none) := by
  refine ⟨rfl, fun env h => ?_, fun h => ?_⟩ <;>
    simp [ExternalVectorSearchApiTool_run, h]

/-- Witness for the amended C2 at a concrete network failure. -/
theorem tool_run_serialization_witness :
    ExternalVectorSearchApiTool_run "q" (.networkFailure "down") =
      some (Json.dumps (Envelope.toJson
        { status := "error", question := none, data := Json.null,
          message := some ("Failed to connect to Vector Search API: " ++ "down") })) :=
  (tool_run_serialization "q" (.networkFailure "down")).2.1 _ rfl

/-- The result field the SQL client extracts from the exchange, along
the source's success path. -/
def sqlResultOf : HttpOutcome → Option Json
  | .response _ _ (some j) => j.getField "result"
  | _ => none

/-- The snippet list the vector-search client builds from the exchange,
along the source's success path. -/
def vectorSnippetsOf : HttpOutcome → Option (List Json)
  | .response _ _ (some j) =>
      match j.getField "retrieved_results" with
      | some rr =>
          match pyIter rr with
          | some items => extractSnippets items
          | none => none
      | none => none
  | _ => none

/-- C7: every envelope either client returns satisfies the invariant:
on status error the data is null or the raw response text and a message
is populated; on status success the question field is the input
question and the data is the normalized payload (the extracted result
field for the SQL client, the snippet sequence for the vector-search
client). -/
theorem client_envelope_invariant (q : String) (o : HttpOutcome) :
    ((call_sql_api q o).status = "error" →
      ((call_sql_api q o).data = Json.null ∨
        ∃ t, rawText o = some t ∧ (call_sql_api q o).data = Json.str t) ∧
      (call_sql_api q o).message ≠ none) ∧
    ((call_sql_api q o).status = "success" →
      (call_sql_api q o).question = some q ∧
      ∃ r, sqlResultOf o = some r ∧ (call_sql_api q o).data = r) ∧
    (∀ env, call_vector_search_api q o = some env →
      (env.status = "error" →
        (env.data = Json.null ∨ ∃ t, rawText o = some t ∧ env.data = Json.str t) ∧
        env.message ≠ none) ∧
      (env.status = "success" →
        env.question = some q ∧
        ∃ snips, vectorSnippetsOf o = some snips ∧ env.data = Json.arr snips)) := by
  cases o with
  | networkFailure m =>
      refine ⟨fun _ => ⟨Or.inl rfl, by simp [call_sql_api]⟩,
              fun h => by simp [call_sql_api] at h,
              fun env henv => ?_⟩
      simp only [call_vector_search_api, Option.some.injEq] at henv
      subst henv
      exact ⟨fun _ => ⟨Or.inl rfl, by simp⟩, fun h => by simp at h⟩
  | response s t b =>
      cases hf : raiseForStatusFails s with
      | true =>
          refine ⟨fun _ => ⟨Or.inl (by simp [call_sql_api, hf]), by simp [call_sql_api, hf]⟩,
                  fun h => by simp [call_sql_api, hf] at h,
                  fun env henv => ?_⟩
          simp only [call_vector_search_api, hf, if_true, Option.some.injEq] at henv
          subst henv
          exact ⟨fun _ => ⟨Or.inl rfl, by simp⟩, fun h => by simp at h⟩
      | false =>
          cases b with
          | none =>
              refine ⟨fun _ => ⟨Or.inr ⟨t, rfl, by simp [call_sql_api, hf]⟩,
                        by simp [call_sql_api, hf]⟩,
                      fun h => by simp [call_sql_api, hf] at h,
                      fun env henv => ?_⟩
              simp only [call_vector_search_api, hf, Bool.false_eq_true, if_false,
                Option.some.injEq] at henv
              subst henv
              exact ⟨fun _ => ⟨Or.inr ⟨t, rfl, rfl⟩, by simp⟩, fun h => by simp at h⟩
          | some j =>
              refine ⟨?_, ?_, ?_⟩
              · cases hres : j.getField "result" with
                | some r => intro h; simp [call_sql_api, hf, hres] at h
                | none =>
                    intro _
                    exact ⟨Or.inr ⟨t, rfl, by simp [call_sql_api, hf, hres]⟩,
                           by simp [call_sql_api, hf, hres]⟩
              · cases hres : j.getField "result" with
                | some r =>
                    intro _
                    exact ⟨by simp [call_sql_api, hf, hres],
                           r, by simp [sqlResultOf, hres], by simp [call_sql_api, hf, hres]⟩
                | none => intro h; simp [call_sql_api, hf, hres] at h
              · intro env henv
                cases hrr : j.getField "retrieved_results" with
                | none => simp [call_vector_search_api, hf, hrr] at henv
                | some rr =>
                    cases hit : pyIter rr with
                    | none => simp [call_vector_search_api, hf, hrr, hit] at henv
                    | some items =>
                        cases hsn : extractSnippets items with
                        | none =>
                            simp [call_vector_search_api, hf, hrr, hit, hsn] at henv
                        | some snips =>
                            simp only [call_vector_search_api, hf, Bool.false_eq_true,
                              if_false, hrr, hit, hsn, Option.map_some',
                              Option.some.injEq] at henv
                            subst henv
                            refine ⟨fun h => by simp at h,
                                    fun _ => ⟨rfl, snips, ?_, rfl⟩⟩
                            simp [vectorSnippetsOf, hrr, hit, hsn]

/-- Witness for C7: the error clause at a concrete network failure and
the success clause at a concrete result-bearing response. -/
theorem client_envelope_invariant_witness :
    (((call_sql_api "q" (.networkFailure "down")).data = Json.null ∨
      ∃ t, rawText (.networkFailure "down") = some t ∧
        (call_sql_api "q" (.networkFailure "down")).data = Json.str t) ∧
     (call_sql_api "q" (.networkFailure "down")).message ≠ none) ∧
    ((call_sql_api "q" (.response 200 "b" (some (Json.obj [("result", Json.num 7)])))).question =
        some "q" ∧
     ∃ r, sqlResultOf (.response 200 "b" (some (Json.obj [("result", Json.num 7)]))) = some r ∧
       (call_sql_api "q" (.response 200 "b" (some (Json.obj [("result", Json.num 7)])))).data = r) :=
  ⟨(client_envelope_invariant "q" (.networkFailure "down")).1 rfl,
   (client_envelope_invariant "q"
      (.response 200 "b" (some (Json.obj [("result", Json.num 7)])))).2.1
     (by simp [call_sql_api, raiseForStatusFails, Json.getField, lookupField])⟩

/-- C8: whenever the executor invocation raises, or its result
dictionary lacks the output key, ask_indian_economy_agent returns the
fixed apology string and nothing else. -/
theorem orchestrator_fallback (q : String) (invoke : String → AgentOutcome) :
    (invoke (wrapQuestion q) = .raised →
      ask_indian_economy_agent q invoke =
        Json.str "Sorry, I encountered an error while processing your request.") ∧
    (∀ r, invoke (wrapQuestion q) = .result r → lookupField r "output" = none →
      ask_indian_economy_agent q invoke =
        Json.str "Sorry, I encountered an error while processing your request.") := by
  constructor
  · intro h
    simp [ask_indian_economy_agent, h]
  · intro r h hout
    simp [ask_indian_economy_agent, h, hout]

/-- Witness for C8 with an executor that always raises. -/
theorem orchestrator_fallback_witness :
    ask_indian_economy_agent "q" (fun _ => .raised) =
      Json.str "Sorry, I encountered an error while processing your request." :=
  (orchestrator_fallback "q" (fun _ => .raised)).1 rfl

/-- C9: each client is a deterministic function of the question and the
remote exchange: two calls with the same question against a service
producing the same outcome yield identical envelopes. -/
theorem clients_deterministic (q : String) (o o2 : HttpOutcome) (h : o = o2) :
    call_sql_api q o = call_sql_api q o2 ∧
    call_vector_search_api q o = call_vector_search_api q o2 := by
  subst h
  exact ⟨rfl, rfl⟩

/-- Witness for C9 at a concrete repeated outcome. -/
theorem clients_deterministic_witness :
    call_sql_api "q" (.networkFailure "x") = call_sql_api "q" (.networkFailure "x") ∧
    call_vector_search_api "q" (.networkFailure "x") =
      call_vector_search_api "q" (.networkFailure "x") :=
  clients_deterministic "q" (.networkFailure "x") (.networkFailure "x") rfl
